import Mathlib

/-!
Shallow embedding of `src/gotek/lcd.c` (FlashFloppy display driver:
HD44780 character LCD via PCF8574 I2C backpack, or SSD1306 OLED).

Modelling conventions:
* Machine bytes are `Nat` values; stores into `uint8_t` truncate with `% 256`.
* The 2x16 text buffer `text[2][16]` is a function `Grid = Nat → Nat → Nat`
  from (row, column) to the stored character byte.
* The DMA transfer buffer is modelled as the `List Nat` of bytes a serializer
  writes into it, paired with the `unsigned int` length the C function returns.
* Hardware registers, GPIO pins and the I2C peripheral are modelled by small
  environments: the outcome of probing an address, the outcome of the BTF
  busy-wait in `oled_prep_buffer`, and the GPIO levels read during the
  floating-bus check.  Interrupt-context functions become explicit state
  transitions on `LcdState`.
* The font tables (`oled_font_8x16`) are opaque external data, passed in as a
  function from word index to 32-bit word, exactly as the C code indexes them.
-/

namespace FFLcd

/-- PCF8574 pin masks: D7-D6-D5-D4-BL-EN-RW-RS (`_BL`, `_EN`, `_RS` in lcd.c). -/
def BL : Nat := 8

/-- Enable strobe bit `_EN`. -/
def EN : Nat := 4

/-- Register-select bit `_RS`. -/
def RS : Nat := 1

/-- HD44780 command bases from lcd.c. -/
def CMD_ENTRYMODE : Nat := 0x04

def CMD_DISPLAYCTL : Nat := 0x08

def CMD_FUNCTIONSET : Nat := 0x20

def CMD_SETDDRADDR : Nat := 0x80

def FS_2LINE : Nat := 0x08

/-- The OLED controller's well-known I2C address (`OLED_ADDR` in lcd.c). -/
def OLED_ADDR : Nat := 0x3c

/-- The 2x16 text buffer `text[2][16]`: (row, column) ↦ character byte. -/
def Grid : Type := Nat → Nat → Nat

/-- Point update of the text buffer (a single `char` store). -/
def gupd (g : Grid) (r c v : Nat) : Grid :=
  fun r2 c2 => if r2 = r ∧ c2 = c then v else g r2 c2

/-- Modelled driver state: the static variables of lcd.c that the claims
observe (`_bl`, `i2c_addr`, `i2c_dead`, `refresh_count`, `text`, `oled_row`). -/
structure LcdState where
  bl : Nat
  i2c_addr : Nat
  i2c_dead : Bool
  refresh_count : Nat
  text : Grid
  oled_row : Nat

/-- `emit4`: write one 4-bit bus value three times (settle, strobe EN, settle).
The C callee parameter is `uint8_t`, so the value is truncated to 8 bits. -/
def emit4 (v : Nat) : List Nat :=
  [v % 256, v % 256 ||| EN, v % 256]

/-- `emit8`: OR the backlight bit into the signal bits, then emit the high
nibble and the low nibble of `val` (the low nibble via `val << 4`, truncated
to `uint8_t` at the `emit4` call). -/
def emit8 (bl val signals : Nat) : List Nat :=
  emit4 ((val &&& 0xf0) ||| (signals ||| bl)) ++ emit4 ((val <<< 4) ||| (signals ||| bl))

/-- One row of `text[i][0..15]` as a list, in column order. -/
def textRowList (g : Grid) (i : Nat) : List Nat :=
  (List.range 16).map (fun j => g i j)

/-- The bytes `lcd_prep_buffer` writes for display row `i`: the DDRAM
address-set command for the row, then its 16 characters with `_RS` set. -/
def lcd_row_bytes (bl : Nat) (g : Grid) (i : Nat) : List Nat :=
  emit8 bl (CMD_SETDDRADDR ||| i * 64) 0
    ++ ((textRowList g i).map (fun c => emit8 bl c RS)).flatten

/-- Full character-mode frame: both rows, row 0 then row 1. -/
def lcd_prep_bytes (bl : Nat) (g : Grid) : List Nat :=
  lcd_row_bytes bl g 0 ++ lcd_row_bytes bl g 1

/-- What a serializer call produced: the returned length, the bytes written
into the transfer buffer, and whether it issued an I2C STOP / START. -/
structure PrepRes where
  len : Nat
  bytes : List Nat
  stopped : Bool
  started : Bool

/-- `lcd_prep_buffer`: bumps `refresh_count` (a `uint8_t`, hence mod 256) and
renders the whole text buffer; returns the byte count written. -/
def lcd_prep_buffer (s : LcdState) : LcdState × PrepRes :=
  let bs := lcd_prep_bytes s.bl s.text
  ({ s with refresh_count := (s.refresh_count + 1) % 256 },
   { len := bs.length, bytes := bs, stopped := false, started := false })

/-- `setup_addr_cmds` from `oled_start_i2c`. -/
def setup_addr_cmds : List Nat := [0x20, 0, 0x21, 0, 127, 0x22, 0, 3]

/-- Bytes written by `oled_start_i2c`: each setup command prefixed with the
Co=1 control byte 0x80, then display on/off from the backlight flag, then the
data-mode marker 0x40.  (The function also resets `oled_row` to 0 and raises
START; that is modelled at its call sites.) -/
def oled_start_i2c_bytes (bl : Nat) : List Nat :=
  (setup_addr_cmds.map (fun c => [0x80, c])).flatten
    ++ [0x80, if bl != 0 then 0xaf else 0xae, 0x40]

/-- Glyph index computed by `oled_convert_text_row`: `c = *pc - 0x20` in
`unsigned int` arithmetic (wrapping mod 2^32); out-of-range characters fall
back to the glyph of a full stop (code 14). -/
def glyphIndex (ch : Nat) : Nat :=
  let d := (ch + 2 ^ 32 - 0x20) % 2 ^ 32
  if d > 0x5e then 14 else d

/-- A 32-bit font word as the four bytes it occupies in `buffer[]`
(little-endian, as on the target). -/
def wordBytes (w : Nat) : List Nat :=
  [w % 256, w / 256 % 256, w / 65536 % 256, w / 16777216 % 256]

/-- Word layout produced by `oled_convert_text_row` (8x16 font variant): for
each of the 16 characters two words go to the top half (offsets 2i, 2i+1) and
two to the bottom half (offsets 2i+32, 2i+33) of the 64-word buffer. -/
def oled_row_words (font : Nat → Nat) (row : List Nat) : List Nat :=
  (row.map (fun ch => [font (glyphIndex ch * 4), font (glyphIndex ch * 4 + 1)])).flatten
    ++ (row.map (fun ch => [font (glyphIndex ch * 4 + 2), font (glyphIndex ch * 4 + 3)])).flatten

/-- The 256 bytes of glyph data one `oled_convert_text_row` call writes. -/
def oled_row_bytes (font : Nat → Nat) (row : List Nat) : List Nat :=
  ((oled_row_words font row).map wordBytes).flatten

/-- Outcome of the busy-wait for BTF inside `oled_prep_buffer`: either BTF is
eventually observed, or an I2C error bit appears first. -/
inductive BtfWait where
  | btf
  | err

/-- `oled_prep_buffer`: with the row cursor at 2 it bumps `refresh_count`,
then either bails with length 0 on a bus error, or closes the transaction
(STOP) and re-opens it via `oled_start_i2c` (which resets the cursor);
otherwise it renders text row `oled_row` (256 bytes) and advances the cursor. -/
def oled_prep_buffer (font : Nat → Nat) (ev : BtfWait) (s : LcdState) :
    LcdState × PrepRes :=
  if s.oled_row == 2 then
    let s1 := { s with refresh_count := (s.refresh_count + 1) % 256 }
    match ev with
    | BtfWait.err => (s1, { len := 0, bytes := [], stopped := false, started := false })
    | BtfWait.btf =>
        let bs := oled_start_i2c_bytes s.bl
        ({ s1 with oled_row := 0 },
         { len := bs.length, bytes := bs, stopped := true, started := true })
  else
    let bs := oled_row_bytes font (textRowList s.text s.oled_row)
    ({ s with oled_row := s.oled_row + 1 },
     { len := 256, bytes := bs, stopped := false, started := false })

/-- Effects of `dma_start(sz)`: the `ASSERT(sz <= sizeof(buffer))` check, the
programmed transfer count `cndtr`, the channel-enable bit, and the
unconditional rearming of the 200 ms timeout timer. -/
structure DmaStart where
  assertOk : Bool
  count : Nat
  enabled : Bool
  watchdogArmed : Bool
deriving DecidableEq

/-- Model of `dma_start`. -/
def dma_start (sz : Nat) : DmaStart :=
  { assertOk := decide (sz ≤ 256), count := sz, enabled := true, watchdogArmed := true }

/-- Observable effects of one DMA-completion interrupt. -/
structure TcRes where
  dmaCleared : Bool
  prep : PrepRes
  dma : DmaStart

/-- `IRQ_dma1_ch4_tc`: clear the DMA controller, run the mode-appropriate
serializer, and call `dma_start` with whatever length it returned. -/
def IRQ_dma1_ch4_tc (font : Nat → Nat) (ev : BtfWait) (s : LcdState) :
    LcdState × TcRes :=
  let pr := if s.i2c_addr == OLED_ADDR then oled_prep_buffer font ev s
            else lcd_prep_buffer s
  (pr.1, { dmaCleared := true, prep := pr.2, dma := dma_start pr.2.len })

/-- `i2c_wait(s)`: each loop iteration reads `sr1` for the status test, reads
`sr1` again for the error test, and reads the elapsed time; the trace supplies
those three observations per iteration.  `none` means the trace ended with the
loop still spinning.  The result pairs the returned boolean with the final
value of the sticky `i2c_dead` flag. -/
def i2c_wait (errMask bound st : Nat) :
    List (Nat × Nat × Nat) → Bool → Option (Bool × Bool)
  | [], _ => none
  | (sr1a, sr1b, elapsed) :: rest, dead =>
    if sr1a &&& st == st then some (true, dead)
    else if sr1b &&& errMask != 0 then some (false, dead)
    else if elapsed > bound then some (false, true)
    else i2c_wait errMask bound st rest dead

/-- Outcome of `i2c_probe(a)`, abstracting its internal `i2c_wait` calls:
the device acknowledged, or the probe failed with a controller-reported error
(`i2c_dead` untouched), or a wait timed out (`i2c_dead` becomes sticky-true). -/
inductive ProbeOut where
  | ack
  | nak
  | timeout
deriving DecidableEq

/-- Result of an address scan. -/
structure ScanRes where
  found : Nat
  dead : Bool
  probed : List Nat
deriving DecidableEq

/-- `i2c_probe_range(s, e)` over the explicit address list: the loop guard
re-checks `i2c_dead` before every probe, stops at the first acknowledgement,
and a timeout aborts the scan with the flag set. -/
def probeList (out : Nat → ProbeOut) : List Nat → Bool → ScanRes
  | [], dead => { found := 0, dead := dead, probed := [] }
  | a :: rest, dead =>
    if dead then { found := 0, dead := dead, probed := [] }
    else
      match out a with
      | ProbeOut.ack => { found := a, dead := dead, probed := [a] }
      | ProbeOut.nak =>
          let r := probeList out rest dead
          { found := r.found, dead := r.dead, probed := a :: r.probed }
      | ProbeOut.timeout => { found := 0, dead := true, probed := [a] }

/-- The inclusive address range `[s, e]` in ascending order. -/
def addrRange (s e : Nat) : List Nat :=
  (List.range (e + 1 - s)).map (fun i => s + i)

/-- `i2c_probe_range(0x20,0x27) ?: i2c_probe_range(0x38,0x3f)` with the
sticky dead flag threaded through both halves. -/
def scan (out : Nat → ProbeOut) (dead : Bool) : ScanRes :=
  let r1 := probeList out (addrRange 0x20 0x27) dead
  if r1.found != 0 then r1
  else
    let r2 := probeList out (addrRange 0x38 0x3f) r1.dead
    { found := r2.found, dead := r2.dead, probed := r1.probed ++ r2.probed }

/-- The full scan order: 0x20-0x27 then 0x38-0x3f. -/
def scanAddrs : List Nat := addrRange 0x20 0x27 ++ addrRange 0x38 0x3f

/-- First acknowledging address in a list (0 when none). -/
def firstAck (out : Nat → ProbeOut) : List Nat → Nat
  | [] => 0
  | a :: rest => if out a = ProbeOut.ack then a else firstAck out rest

/-- Addresses actually probed: the prefix up to and including the first
acknowledging address. -/
def probedThrough (out : Nat → ProbeOut) : List Nat → List Nat
  | [] => []
  | a :: rest => if out a = ProbeOut.ack then [a] else a :: probedThrough out rest

/-- The copy loop of `lcd_write`: `while ((c = *str++) && (col++ < 16))`
copies a character and decrements `min` each time the column bound admits it;
the string is the NUL-terminated text as a list (the terminator ends it). -/
def copyLoop (row : Nat) : List Nat → Grid → Nat → Int → Grid × Nat × Int
  | [], g, col, mn => (g, col, mn)
  | c :: cs, g, col, mn =>
    if col < 16 then copyLoop row cs (gupd g row col c) (col + 1) (mn - 1)
    else (g, col + 1, mn)

/-- The pad loop of `lcd_write`: `while ((min-- > 0) && (col++ < 16))` writes
spaces; it runs at most `min.toNat` times, stopping at column 16. -/
def padLoop (row : Nat) : Nat → Grid → Nat → Grid
  | 0, g, _ => g
  | Nat.succ n, g, col =>
    if col < 16 then padLoop row n (gupd g row col 32) (col + 1) else g

/-- `lcd_write(col, row, min, str)` acting on the text buffer. -/
def lcd_write (g : Grid) (col row : Nat) (mn : Int) (str : List Nat) : Grid :=
  let r := copyLoop row str g col mn
  padLoop row r.2.2.toNat r.1 r.2.1

/-- `lcd_clear()`: write 16-wide blank fields to both rows. -/
def lcd_clear (g : Grid) : Grid :=
  lcd_write (lcd_write g 0 0 16 []) 0 1 16 []

/-- 8-bit wraparound subtraction `(uint8_t)(a - b)`. -/
def wrap8sub (a b : Nat) : Nat := (a % 256 + 256 - b % 256) % 256

/-- The spin loop of `lcd_sync` over a trace `rc` of successive reads of the
volatile `refresh_count`: returns the index of the read at which the loop
exits, or `none` if the fuel runs out first. -/
def lcd_sync_loop (rc : Nat → Nat) (c : Nat) : Nat → Nat → Option Nat
  | 0, _ => none
  | Nat.succ fuel, i =>
    if wrap8sub (rc i) c < 2 then lcd_sync_loop rc c fuel (i + 1) else some i

/-- `lcd_sync()`: snapshot `c = refresh_count` (read 0 of the trace), then
spin until the 8-bit difference reaches 2. -/
def lcd_sync (rc : Nat → Nat) (fuel : Nat) : Option Nat :=
  lcd_sync_loop rc (rc 0) fuel 0

/-- Bytes of the character-LCD DMA initialisation sequence built in
`lcd_init` (function set, display ctl, entry mode, display on). -/
def lcd_init_dma_bytes (bl : Nat) : List Nat :=
  emit8 bl (CMD_FUNCTIONSET ||| FS_2LINE) 0
    ++ emit8 bl CMD_DISPLAYCTL 0
    ++ emit8 bl (CMD_ENTRYMODE ||| 2) 0
    ++ emit8 bl (CMD_DISPLAYCTL ||| 4) 0

/-- `init_cmds` from `oled_init`. -/
def init_cmds : List Nat :=
  [0xd5, 0x80, 0xa8, 31, 0xd3, 0x00, 0x40, 0x8d, 0x14, 0xa1, 0xc8,
   0xda, 0x02, 0x81, 0x8f, 0xd9, 0xf1, 0xdb, 0x20, 0xa4, 0xa6, 0x2e]

/-- Bytes of the OLED DMA initialisation sequence built by `oled_init`: the
SSD1306 command list (each byte behind a 0x80 control byte) followed by the
`oled_start_i2c` re-addressing block. -/
def oled_init_bytes (bl : Nat) : List Nat :=
  (init_cmds.map (fun c => [0x80, c])).flatten ++ oled_start_i2c_bytes bl

/-- Which controller branch `lcd_init` dispatched to. -/
inductive Ctype where
  | unknown
  | character
  | bitmap
deriving DecidableEq

/-- Environment for one `lcd_init` run: the two GPIO levels read by the
pull-down floating-bus check, the response of each probed address, and the
outcome of the synchronous `i2c_start(i2c_addr)` on the character path. -/
structure InitEnv where
  floatSclHigh : Bool
  floatSdaHigh : Bool
  probeOut : Nat → ProbeOut
  startOut : ProbeOut

/-- Observable outcome of `lcd_init`: the returned boolean, whether the
floating-bus check ran, the addresses probed, the dispatched controller type,
the initial DMA (if one was started), and the five teardown actions of the
first-init failure path. -/
structure InitResult where
  ok : Bool
  ranFloatCheck : Bool
  probed : List Nat
  mode : Ctype
  dma : Option DmaStart
  irqErrDisabled : Bool
  irqDmaDisabled : Bool
  peDisabled : Bool
  pinsPullUp : Bool
  clockDisabled : Bool

/-- The `fail:` label of `lcd_init`: a reinit call returns false at once; a
first-boot call first disables both interrupts, the peripheral-enable bit and
the APB clock, and returns both pins to weak pull-up inputs. -/
def initFail (reinit ranFloat : Bool) (probed : List Nat) (md : Ctype) : InitResult :=
  { ok := false, ranFloatCheck := ranFloat, probed := probed, mode := md,
    dma := none,
    irqErrDisabled := !reinit, irqDmaDisabled := !reinit, peDisabled := !reinit,
    pinsPullUp := !reinit, clockDisabled := !reinit }

/-- A successful `lcd_init` outcome (no teardown action runs). -/
def initOk (ranFloat : Bool) (probed : List Nat) (md : Ctype) (d : DmaStart) :
    InitResult :=
  { ok := true, ranFloatCheck := ranFloat, probed := probed, mode := md,
    dma := some d,
    irqErrDisabled := false, irqDmaDisabled := false, peDisabled := false,
    pinsPullUp := false, clockDisabled := false }

/-- Tail of `lcd_init` after bus checks and (on first init) device detection:
dispatch on `i2c_addr == OLED_ADDR`; the OLED branch runs `oled_init`
(fast-mode setup, command list, `oled_start_i2c` resetting the row cursor)
and always succeeds; the character branch first needs the synchronous
`i2c_start` to succeed, then queues the 4-command DMA sequence, and on a
first init waits via `lcd_sync` and turns the backlight on. -/
def lcd_init_tail (env : InitEnv) (s : LcdState) (reinit ranFloat : Bool)
    (probed : List Nat) : LcdState × InitResult :=
  if s.i2c_addr == OLED_ADDR then
    ({ s with oled_row := 0 },
     initOk ranFloat probed Ctype.bitmap (dma_start (oled_init_bytes s.bl).length))
  else
    match env.startOut with
    | ProbeOut.ack =>
        let d := dma_start (lcd_init_dma_bytes s.bl).length
        let s' := if !reinit then { s with bl := BL } else s
        (s', initOk ranFloat probed Ctype.character d)
    | ProbeOut.nak => (s, initFail reinit ranFloat probed Ctype.character)
    | ProbeOut.timeout =>
        ({ s with i2c_dead := true }, initFail reinit ranFloat probed Ctype.character)

/-- `lcd_init()`.  `reinit` is latched from `i2c_addr != 0` at entry.  The
open-drain unwedge sequence at the top only drives GPIO lines and touches no
modelled state, so it is not represented.  On a first init the weak-pull-down
floating-bus check must see both lines high; then the two address ranges are
scanned, the found address stored, and the text buffer cleared.  A reinit
skips all of that and goes straight to the controller-specific tail. -/
def lcd_init (env : InitEnv) (s : LcdState) : LcdState × InitResult :=
  let reinit : Bool := s.i2c_addr != 0
  if !reinit && !(env.floatSclHigh && env.floatSdaHigh) then
    (s, initFail reinit true [] Ctype.unknown)
  else if !reinit then
    let sc := scan env.probeOut s.i2c_dead
    if sc.found == 0 then
      ({ s with i2c_dead := sc.dead }, initFail reinit true sc.probed Ctype.unknown)
    else
      lcd_init_tail env
        { s with i2c_addr := sc.found, i2c_dead := sc.dead, text := lcd_clear s.text }
        reinit true sc.probed
  else
    lcd_init_tail env s reinit false []

/-- The copy loop's cumulative effect: the characters stored in consecutive
columns starting at `col` of row `row` (used to characterise `copyLoop`). -/
def writeRun (row : Nat) : List Nat → Grid → Nat → Grid
  | [], g, _ => g
  | c :: cs, g, col => writeRun row cs (gupd g row col c) (col + 1)

/-- A nibble's three wire bytes as the claim words them: the value, the value
with the enable strobe high, the value again. -/
def specNibbleTriple (w : Nat) : List Nat := [w, w ||| EN, w]

/-- A wire byte as the claim words it: the nibble on the data lines D7-D4,
with the signal bits and the backlight flag OR'd in. -/
def specNibbleWire (bl sig nib : Nat) : Nat := nib * 16 ||| sig ||| bl

/-- A logical byte as the claim words it: high nibble first, then low nibble,
each emitted as its three-byte triple. -/
def specByteEmit (bl sig v : Nat) : List Nat :=
  specNibbleTriple (specNibbleWire bl sig (v / 16 % 16))
    ++ specNibbleTriple (specNibbleWire bl sig (v % 16))

/-- Row 0 of the claim's scenario: the codes of H, E, L, L, O and 11 spaces. -/
def helloRow0 : List Nat := [72, 69, 76, 76, 79] ++ List.replicate 11 32

/-- A full row of space characters. -/
def spaceRow16 : List Nat := List.replicate 16 32

/-- The byte sequence the claim describes for the HELLO frame: row-0
address-set command, the 16 row-0 characters with register-select asserted,
the row-1 address-set command (0x80 | 64), the 16 row-1 characters. -/
def c4_spec_bytes (bl : Nat) : List Nat :=
  specByteEmit bl 0 0x80
    ++ (helloRow0.map (fun c => specByteEmit bl RS c)).flatten
    ++ specByteEmit bl 0 (0x80 ||| 64)
    ++ (spaceRow16.map (fun c => specByteEmit bl RS c)).flatten

/-- Driver state whose text buffer holds HELLO at row 0, column 0 (written
through `lcd_write` with width 16, as the spec's round-trip scenario does)
and spaces everywhere else. -/
def sHello (bl : Nat) : LcdState :=
  { bl := bl, i2c_addr := 0x27, i2c_dead := false, refresh_count := 0,
    text := lcd_write (fun _ _ => 32) 0 0 16 [72, 69, 76, 76, 79], oled_row := 0 }

/-- An all-zero font table (the claims never depend on glyph pixel values). -/
def font0 : Nat → Nat := fun _ => 0

/-- Benign environment: clean bus, no device acknowledging, synchronous
start succeeding. -/
def env0 : InitEnv :=
  { floatSclHigh := true, floatSdaHigh := true,
    probeOut := fun _ => ProbeOut.nak, startOut := ProbeOut.ack }

/-- Reinit-time state: a character LCD already detected at 0x27, text buffer
full of the character X (code 88). -/
def s0 : LcdState :=
  { bl := 0, i2c_addr := 0x27, i2c_dead := false, refresh_count := 0,
    text := fun _ _ => 88, oled_row := 0 }

/-- Environment in which address 0x20 acknowledges. -/
def env1 : InitEnv :=
  { floatSclHigh := true, floatSdaHigh := true,
    probeOut := fun a => if a == 0x20 then ProbeOut.ack else ProbeOut.nak,
    startOut := ProbeOut.ack }

/-- Power-up state: no address stored yet, text buffer full of X (code 88). -/
def sInit : LcdState :=
  { bl := 0, i2c_addr := 0, i2c_dead := false, refresh_count := 0,
    text := fun _ _ => 88, oled_row := 0 }

/-- OLED-mode state with the row cursor already at 2 (re-address step due). -/
def sErr : LcdState :=
  { bl := 0, i2c_addr := 0x3c, i2c_dead := false, refresh_count := 0,
    text := fun _ _ => 32, oled_row := 2 }

/-- Power-up state with the sticky dead flag already set. -/
def sDead : LcdState :=
  { bl := 0, i2c_addr := 0, i2c_dead := true, refresh_count := 0,
    text := fun _ _ => 32, oled_row := 0 }

/-- Environment whose floating-bus check fails (SCL reads low). -/
def envFail : InitEnv :=
  { floatSclHigh := false, floatSdaHigh := true,
    probeOut := fun _ => ProbeOut.nak, startOut := ProbeOut.ack }

/-- Environment in which the synchronous character-LCD start fails. -/
def envNak : InitEnv :=
  { floatSclHigh := true, floatSdaHigh := true,
    probeOut := fun _ => ProbeOut.nak, startOut := ProbeOut.nak }

theorem lcd_sync_loop_adv (rc : Nat → Nat) (c : Nat) :
    ∀ (fuel j i : Nat), lcd_sync_loop rc c fuel j = some i →
      2 ≤ wrap8sub (rc i) c := by
  intro fuel
  induction fuel with
  | zero => intro j i h; simp [lcd_sync_loop] at h
  | succ n ih =>
    intro j i h
    simp only [lcd_sync_loop] at h
    split at h
    · exact ih (j + 1) i h
    · simp only [Option.some.injEq] at h
      subst h
      omega

/-- C1: when `lcd_sync` returns (at read index `i` of the trace of
`refresh_count` values), the counter has advanced by at least 2 modulo 256
from its value at call time, the comparison being 8-bit wraparound
subtraction.  The loop is identical in both controller modes, so the trace
`rc` ranges over the counter evolutions of either mode. -/
theorem C1_lcd_sync_advance (rc : Nat → Nat) (fuel i : Nat)
    (h : lcd_sync rc fuel = some i) :
    2 ≤ wrap8sub (rc i) (rc 0) :=
  lcd_sync_loop_adv rc (rc 0) fuel 0 i h

/-- Witness for C1: on the trace that increments the counter by one per read,
the spin loop exits at read 2 having observed an advance of 2. -/
theorem C1_lcd_sync_advance_witness :
    2 ≤ wrap8sub ((fun n => n) 2) ((fun n => n) 0) :=
  C1_lcd_sync_advance (fun n => n) 3 2 (by decide)

set_option maxRecDepth 4000 in
/-- C4: serializing the HELLO text buffer produces exactly the byte stream
the claim spells out, for both backlight states: row-0 address-set (0x80),
the 16 row-0 characters (H, E, L, L, O, 11 spaces) with register-select,
row-1 address-set (0x80 | 64), the 16 row-1 spaces; each logical byte as high
nibble then low nibble, each nibble written three times (value, value with
enable strobed high, value), backlight OR'd into every wire byte. -/
theorem C4_hello_frame (b : Bool) :
    (lcd_prep_buffer (sHello (if b then BL else 0))).2.bytes
      = c4_spec_bytes (if b then BL else 0) := by
  cases b <;> decide

theorem gupd_same (g : Grid) (r c v : Nat) : gupd g r c v r c = v := by
  simp [gupd]

theorem gupd_other (g : Grid) (r c v r2 c2 : Nat) (h : r2 ≠ r ∨ c2 ≠ c) :
    gupd g r c v r2 c2 = g r2 c2 := by
  simp only [gupd]
  rw [if_neg]
  tauto

theorem copyLoop_spec (row : Nat) :
    ∀ (str : List Nat) (g : Grid) (col : Nat) (mn : Int),
      col + str.length ≤ 16 →
      copyLoop row str g col mn
        = (writeRun row str g col, col + str.length, mn - str.length) := by
  intro str
  induction str with
  | nil => intro g col mn h; simp [copyLoop, writeRun]
  | cons c cs ih =>
    intro g col mn h
    have hc : col < 16 := by simp only [List.length_cons] at h; omega
    simp only [copyLoop, if_pos hc]
    rw [ih (gupd g row col c) (col + 1) (mn - 1)
      (by simp only [List.length_cons] at h ⊢; omega)]
    simp only [writeRun, List.length_cons, Prod.mk.injEq]
    refine ⟨trivial, by omega, by push_cast; ring⟩

theorem writeRun_preserve (row : Nat) :
    ∀ (str : List Nat) (g : Grid) (col r c : Nat),
      (r ≠ row ∨ c < col ∨ col + str.length ≤ c) →
      writeRun row str g col r c = g r c := by
  intro str
  induction str with
  | nil => intro g col r c h; simp [writeRun]
  | cons x xs ih =>
    intro g col r c h
    simp only [List.length_cons] at h
    simp only [writeRun]
    have hside : r ≠ row ∨ c < col + 1 ∨ (col + 1) + xs.length ≤ c := by
      rcases h with h | h | h
      · exact Or.inl h
      · exact Or.inr (Or.inl (by omega))
      · exact Or.inr (Or.inr (by omega))
    rw [ih (gupd g row col x) (col + 1) r c hside]
    apply gupd_other
    rcases h with h | h | h
    · exact Or.inl h
    · exact Or.inr (by omega)
    · exact Or.inr (by omega)

theorem writeRun_get (row : Nat) :
    ∀ (str : List Nat) (g : Grid) (col i : Nat) (h : i < str.length),
      writeRun row str g col row (col + i) = str.get ⟨i, h⟩ := by
  intro str
  induction str with
  | nil => intro g col i h; simp at h
  | cons x xs ih =>
    intro g col i h
    simp only [writeRun]
    cases i with
    | zero =>
      rw [writeRun_preserve row xs (gupd g row col x) (col + 1) row (col + 0)
        (Or.inr (Or.inl (by omega)))]
      simpa using gupd_same g row col x
    | succ k =>
      rw [show col + (k + 1) = (col + 1) + k by omega]
      rw [ih (gupd g row col x) (col + 1) k (by simp only [List.length_cons] at h; omega)]
      simp

theorem padLoop_preserve (row : Nat) :
    ∀ (n : Nat) (g : Grid) (col r c : Nat),
      (r ≠ row ∨ c < col ∨ col + n ≤ c ∨ 16 ≤ c) →
      padLoop row n g col r c = g r c := by
  intro n
  induction n with
  | zero => intro g col r c h; simp [padLoop]
  | succ m ih =>
    intro g col r c h
    simp only [padLoop]
    split
    · rename_i hcol
      have hside : r ≠ row ∨ c < col + 1 ∨ (col + 1) + m ≤ c ∨ 16 ≤ c := by
        rcases h with h | h | h | h
        · exact Or.inl h
        · exact Or.inr (Or.inl (by omega))
        · exact Or.inr (Or.inr (Or.inl (by omega)))
        · exact Or.inr (Or.inr (Or.inr h))
      rw [ih (gupd g row col 32) (col + 1) r c hside]
      apply gupd_other
      rcases h with h | h | h | h
      · exact Or.inl h
      · exact Or.inr (by omega)
      · exact Or.inr (by omega)
      · exact Or.inr (by omega)
    · rfl

theorem padLoop_get (row : Nat) :
    ∀ (n : Nat) (g : Grid) (col j : Nat), j < n → col + j < 16 →
      padLoop row n g col row (col + j) = 32 := by
  intro n
  induction n with
  | zero => intro g col j h1 h2; omega
  | succ m ih =>
    intro g col j h1 h2
    have hcol : col < 16 := by omega
    simp only [padLoop, if_pos hcol]
    cases j with
    | zero =>
      rw [padLoop_preserve row m (gupd g row col 32) (col + 1) row (col + 0)
        (Or.inr (Or.inl (by omega)))]
      simpa using gupd_same g row col 32
    | succ k =>
      rw [show col + (k + 1) = (col + 1) + k by omega]
      exact ih (gupd g row col 32) (col + 1) k (by omega) (by omega)

/-- C5: for start column ≤ 16, row 0 or 1, any minimum width, and a string
shorter than 16 minus the start column, `lcd_write` (i) copies the string
into consecutive cells of the addressed row starting at the start column,
(ii) space-pads the following cells until the requested minimum width is
met or column 16 is reached, and (iii) leaves every cell at column 16 or
beyond, and every cell of the other row, unchanged. -/
theorem C5_lcd_write_shape (g : Grid) (col row : Nat) (mn : Int) (str : List Nat)
    (_hrow : row < 2) (hcol : col ≤ 16) (hlen : str.length < 16 - col) :
    (∀ (i : Nat) (hi : i < str.length),
        lcd_write g col row mn str row (col + i) = str.get ⟨i, hi⟩)
    ∧ (∀ j : Nat, str.length ≤ j → (j : Int) < mn → col + j < 16 →
        lcd_write g col row mn str row (col + j) = 32)
    ∧ (∀ r c : Nat, r ≠ row ∨ 16 ≤ c →
        lcd_write g col row mn str r c = g r c) := by
  have hb : col + str.length ≤ 16 := by omega
  have hw : lcd_write g col row mn str
      = padLoop row (mn - str.length).toNat (writeRun row str g col)
          (col + str.length) := by
    unfold lcd_write
    rw [copyLoop_spec row str g col mn hb]
  refine ⟨?_, ?_, ?_⟩
  · intro i hi
    rw [hw, padLoop_preserve row _ _ _ row (col + i) (Or.inr (Or.inl (by omega)))]
    exact writeRun_get row str g col i hi
  · intro j hj hjmn hj16
    rw [hw, show col + j = (col + str.length) + (j - str.length) by omega]
    exact padLoop_get row _ _ _ (j - str.length) (by omega) (by omega)
  · intro r c hrc
    have hpres : r ≠ row ∨ c < col + str.length ∨ (col + str.length)
        + (mn - str.length).toNat ≤ c ∨ 16 ≤ c := by
      rcases hrc with h | h
      · exact Or.inl h
      · exact Or.inr (Or.inr (Or.inr h))
    rw [hw, padLoop_preserve row _ _ _ r c hpres]
    apply writeRun_preserve
    rcases hrc with h | h
    · exact Or.inl h
    · exact Or.inr (Or.inr (by omega))

/-- Witness for C5 with grid constantly 65, start column 1, row 0, minimum
width 5 and the two-character string [72, 73]: the copied cell, a padded
cell, and an untouched cell of the other row. -/
theorem C5_lcd_write_shape_witness :
    lcd_write (fun _ _ => 65) 1 0 5 [72, 73] 0 1 = 72
    ∧ lcd_write (fun _ _ => 65) 1 0 5 [72, 73] 0 4 = 32
    ∧ lcd_write (fun _ _ => 65) 1 0 5 [72, 73] 1 3 = 65 := by
  have h := C5_lcd_write_shape (fun _ _ => 65) 1 0 5 [72, 73]
    (by decide) (by decide) (by decide)
  refine ⟨?_, ?_, ?_⟩
  · have h1 := h.1 0 (by decide)
    simpa using h1
  · have h2 := h.2.1 3 (by decide) (by decide) (by decide)
    simpa using h2
  · exact h.2.2 1 3 (Or.inl (by decide))

theorem lcd_write_blank_row (g : Grid) (row : Nat) :
    lcd_write g 0 row 16 [] = padLoop row 16 g 0 := by
  rfl

theorem lcd_clear_blank (g : Grid) (r c : Nat) (hr : r < 2) (hc : c < 16) :
    lcd_clear g r c = 32 := by
  unfold lcd_clear
  rw [lcd_write_blank_row, lcd_write_blank_row]
  interval_cases r
  · rw [padLoop_preserve 1 16 (padLoop 0 16 g 0) 0 0 c (Or.inl (by omega))]
    have h := padLoop_get 0 16 g 0 c hc (by omega)
    simpa using h
  · have h := padLoop_get 1 16 (padLoop 0 16 g 0) 0 c hc (by omega)
    simpa using h

/-- C6 counterexample: a successful error-triggered reinitialization (stored
address 0x27, synchronous start succeeding) returns true but leaves the text
buffer holding the non-blank character 88 it held before, so the text buffer
is NOT reset to blank on every successful initialization. -/
theorem C6_reinit_keeps_text :
    (lcd_init env0 s0).2.ok = true ∧ (lcd_init env0 s0).1.text 0 0 = 88 := by
  constructor <;> decide

theorem lcd_init_first_shape (env : InitEnv) (s : LcdState)
    (hb : (s.i2c_addr != 0) = false) :
    (lcd_init env s).2.ok = false ∨ (lcd_init env s).1.text = lcd_clear s.text := by
  simp only [lcd_init, hb, Bool.not_false, Bool.true_and, if_true]
  split
  · left; rfl
  · split
    · left; rfl
    · unfold lcd_init_tail
      split
      · right; rfl
      · cases env.startOut with
        | ack => right; rfl
        | nak => left; rfl
        | timeout => left; rfl

theorem lcd_init_reinit_text (env : InitEnv) (s : LcdState)
    (hb : (s.i2c_addr != 0) = true) :
    (lcd_init env s).1.text = s.text := by
  simp only [lcd_init, hb, Bool.not_true, Bool.false_and, Bool.false_eq_true,
    if_false]
  unfold lcd_init_tail
  split
  · rfl
  · cases env.startOut with
    | ack => rfl
    | nak => rfl
    | timeout => rfl

/-- C6 amended: the 2x16 text buffer is reset to all blank (code 32) by every
successful FIRST initialization (no address stored at entry); an
error-triggered reinitialization leaves the text buffer untouched. -/
theorem C6_first_init_clears (env : InitEnv) (s : LcdState) :
    (s.i2c_addr = 0 → (lcd_init env s).2.ok = true →
       ∀ r c : Nat, r < 2 → c < 16 → (lcd_init env s).1.text r c = 32)
    ∧ (s.i2c_addr ≠ 0 → (lcd_init env s).1.text = s.text) := by
  constructor
  · intro ha hok r c hr hc
    have hb : (s.i2c_addr != 0) = false := by simp [ha]
    rcases lcd_init_first_shape env s hb with h | h
    · rw [hok] at h
      simp at h
    · rw [h]
      exact lcd_clear_blank s.text r c hr hc
  · intro ha
    exact lcd_init_reinit_text env s (by simp [ha])

/-- Witness for C6 amended: a first initialization that finds a device at
0x20 clears the X-filled buffer to spaces; the reinit of the counterexample
state leaves its buffer function untouched. -/
theorem C6_first_init_clears_witness :
    (lcd_init env1 sInit).1.text 0 0 = 32
    ∧ (lcd_init env0 s0).1.text = s0.text := by
  constructor
  · exact (C6_first_init_clears env1 sInit).1 (by decide) (by decide) 0 0
      (by decide) (by decide)
  · exact (C6_first_init_clears env0 s0).2 (by decide)

theorem flatten_map_length {α β : Type} (f : α → List β) (k : Nat)
    (hf : ∀ x, (f x).length = k) :
    ∀ l : List α, ((l.map f).flatten).length = k * l.length := by
  intro l
  induction l with
  | nil => simp
  | cons a t ih =>
    simp only [List.map_cons, List.flatten_cons, List.length_append, ih, hf a,
      List.length_cons, Nat.mul_succ]
    omega

theorem textRowList_length (g : Grid) (i : Nat) : (textRowList g i).length = 16 := by
  simp [textRowList]

theorem oled_row_bytes_length (font : Nat → Nat) (g : Grid) (i : Nat) :
    (oled_row_bytes font (textRowList g i)).length = 256 := by
  have hw : (oled_row_words font (textRowList g i)).length = 64 := by
    have ha := flatten_map_length
      (fun ch => [font (glyphIndex ch * 4), font (glyphIndex ch * 4 + 1)]) 2
      (fun _ => rfl) (textRowList g i)
    have hb := flatten_map_length
      (fun ch => [font (glyphIndex ch * 4 + 2), font (glyphIndex ch * 4 + 3)]) 2
      (fun _ => rfl) (textRowList g i)
    simp [oled_row_words, ha, hb, textRowList_length]
  have h4 := flatten_map_length wordBytes 4 (fun _ => rfl)
    (oled_row_words font (textRowList g i))
  simp [oled_row_bytes, h4, hw]

/-- C2: starting from row cursor 0 in bitmap mode, the first serializer call
returns 256 and the glyph rendering of text row 0 and only advances the
cursor to 1; the second call returns 256 and the rendering of text row 1,
cursor to 2; the third call (cursor 2, BTF observed) bumps the Refresh
Counter by exactly one mod 256, closes the bus transaction (STOP), resets
the cursor to 0, opens a new transaction, and returns the 19-byte
re-addressing sequence: addressing mode (0x20, horizontal), column range
0-127, page range 0-3, display on/off from the backlight flag, and the
data-mode marker 0x40; and in character mode `lcd_prep_buffer` bumps the
Refresh Counter by exactly one mod 256 on every call. -/
theorem C2_bitmap_frame_cycle (font : Nat → Nat) (bl addr : Nat) (dead : Bool)
    (rc : Nat) (g : Grid) (e1 e2 : BtfWait) :
    (oled_prep_buffer font e1 (LcdState.mk bl addr dead rc g 0)).1
      = LcdState.mk bl addr dead rc g 1
    ∧ (oled_prep_buffer font e1 (LcdState.mk bl addr dead rc g 0)).2
      = { len := 256, bytes := oled_row_bytes font (textRowList g 0),
          stopped := false, started := false }
    ∧ (oled_row_bytes font (textRowList g 0)).length = 256
    ∧ (oled_prep_buffer font e2 (LcdState.mk bl addr dead rc g 1)).1
      = LcdState.mk bl addr dead rc g 2
    ∧ (oled_prep_buffer font e2 (LcdState.mk bl addr dead rc g 1)).2
      = { len := 256, bytes := oled_row_bytes font (textRowList g 1),
          stopped := false, started := false }
    ∧ (oled_row_bytes font (textRowList g 1)).length = 256
    ∧ (oled_prep_buffer font BtfWait.btf (LcdState.mk bl addr dead rc g 2)).1
      = LcdState.mk bl addr dead ((rc + 1) % 256) g 0
    ∧ (oled_prep_buffer font BtfWait.btf (LcdState.mk bl addr dead rc g 2)).2
      = { len := 19,
          bytes := [0x80, 0x20, 0x80, 0x00, 0x80, 0x21, 0x80, 0x00, 0x80, 0x7f,
                    0x80, 0x22, 0x80, 0x00, 0x80, 0x03,
                    0x80, if bl != 0 then 0xaf else 0xae, 0x40],
          stopped := true, started := true }
    ∧ (∀ s' : LcdState,
        (lcd_prep_buffer s').1.refresh_count = (s'.refresh_count + 1) % 256) := by
  refine ⟨rfl, rfl, oled_row_bytes_length font g 0, rfl, rfl,
    oled_row_bytes_length font g 1, rfl, rfl, ?_⟩
  intro s'
  rfl

/-- C3 counterexample: in bitmap mode with the row cursor at 2 and a bus
error pending, the serializer returns length 0, yet the DMA-completion
handler still calls `dma_start(0)`: the DMA channel is enabled (with a zero
byte count) and the 200 ms watchdog IS rearmed, contradicting the claim that
a zero-length result suppresses the restart and leaves the watchdog unarmed. -/
theorem C3_zero_len_still_arms :
    (IRQ_dma1_ch4_tc font0 BtfWait.err sErr).2.prep.len = 0
    ∧ (IRQ_dma1_ch4_tc font0 BtfWait.err sErr).2.dma.watchdogArmed = true
    ∧ (IRQ_dma1_ch4_tc font0 BtfWait.err sErr).2.dma.enabled = true
    ∧ (IRQ_dma1_ch4_tc font0 BtfWait.err sErr).2.dma.count = 0 := by
  refine ⟨rfl, rfl, rfl, rfl⟩

/-- C3 amended: on every DMA-completion event the handler clears the DMA
completion status, runs the serializer selected by the detected controller
mode, and then unconditionally programs the next transfer with the returned
length and rearms the 200 ms watchdog — even when the serializer returns
zero (bitmap-mode error path), in which case the DMA is programmed with a
zero byte count and the watchdog is still rearmed. -/
theorem C3_completion_restart (font : Nat → Nat) (ev : BtfWait) (s : LcdState) :
    (IRQ_dma1_ch4_tc font ev s).2.dmaCleared = true
    ∧ (IRQ_dma1_ch4_tc font ev s).2.prep
        = (if s.i2c_addr = OLED_ADDR then (oled_prep_buffer font ev s).2
           else (lcd_prep_buffer s).2)
    ∧ (IRQ_dma1_ch4_tc font ev s).1
        = (if s.i2c_addr = OLED_ADDR then (oled_prep_buffer font ev s).1
           else (lcd_prep_buffer s).1)
    ∧ (IRQ_dma1_ch4_tc font ev s).2.dma.watchdogArmed = true
    ∧ (IRQ_dma1_ch4_tc font ev s).2.dma.enabled = true
    ∧ (IRQ_dma1_ch4_tc font ev s).2.dma.count
        = (IRQ_dma1_ch4_tc font ev s).2.prep.len := by
  unfold IRQ_dma1_ch4_tc dma_start
  by_cases h : s.i2c_addr = OLED_ADDR <;> simp [h]

theorem probeList_dead (out : Nat → ProbeOut) (l : List Nat) :
    probeList out l true = { found := 0, dead := true, probed := [] } := by
  cases l with
  | nil => rfl
  | cons a rest => simp [probeList]

theorem probeList_clean (out : Nat → ProbeOut)
    (hnt : ∀ a, out a ≠ ProbeOut.timeout) :
    ∀ l : List Nat, probeList out l false
      = { found := firstAck out l, dead := false, probed := probedThrough out l } := by
  intro l
  induction l with
  | nil => rfl
  | cons a rest ih =>
    cases hoa : out a with
    | ack => simp [probeList, firstAck, probedThrough, hoa]
    | nak => simp [probeList, firstAck, probedThrough, hoa, ih]
    | timeout => exact absurd hoa (hnt a)

theorem firstAck_eq_zero (out : Nat → ProbeOut) :
    ∀ l : List Nat, (∀ a ∈ l, a ≠ 0) →
      (firstAck out l = 0 ↔ ∀ a ∈ l, out a ≠ ProbeOut.ack) := by
  intro l
  induction l with
  | nil => intro _; simp [firstAck]
  | cons a rest ih =>
    intro hz
    have ha : a ≠ 0 := hz a (by simp)
    by_cases hoa : out a = ProbeOut.ack
    · simp [firstAck, hoa, ha]
    · simp only [firstAck, if_neg hoa]
      rw [ih (fun x hx => hz x (by simp [hx]))]
      constructor
      · intro h x hx
        rcases List.mem_cons.mp hx with hx | hx
        · subst hx; exact hoa
        · exact h x hx
      · intro h x hx
        exact h x (List.mem_cons_of_mem a hx)

theorem probedThrough_noack (out : Nat → ProbeOut) :
    ∀ l : List Nat, (∀ a ∈ l, out a ≠ ProbeOut.ack) →
      probedThrough out l = l := by
  intro l
  induction l with
  | nil => intro _; rfl
  | cons a rest ih =>
    intro h
    have hoa : out a ≠ ProbeOut.ack := h a (by simp)
    simp only [probedThrough, if_neg hoa]
    rw [ih (fun x hx => h x (List.mem_cons_of_mem a hx))]

theorem firstAck_append (out : Nat → ProbeOut) :
    ∀ l1 l2 : List Nat, (∀ a ∈ l1, a ≠ 0) →
      firstAck out (l1 ++ l2)
        = if firstAck out l1 = 0 then firstAck out l2 else firstAck out l1 := by
  intro l1
  induction l1 with
  | nil => intro l2 _; simp [firstAck]
  | cons a rest ih =>
    intro l2 hz
    have ha : a ≠ 0 := hz a (by simp)
    by_cases hoa : out a = ProbeOut.ack
    · simp [firstAck, hoa, ha]
    · simp only [List.cons_append, firstAck, if_neg hoa]
      exact ih l2 (fun x hx => hz x (by simp [hx]))

theorem probedThrough_append_noack (out : Nat → ProbeOut) :
    ∀ l1 l2 : List Nat, (∀ a ∈ l1, out a ≠ ProbeOut.ack) →
      probedThrough out (l1 ++ l2) = l1 ++ probedThrough out l2 := by
  intro l1
  induction l1 with
  | nil => intro l2 _; rfl
  | cons a rest ih =>
    intro l2 h
    have hoa : out a ≠ ProbeOut.ack := h a (by simp)
    simp only [List.cons_append, probedThrough, if_neg hoa]
    exact congrArg (fun t => a :: t) (ih l2 (fun x hx => h x (List.mem_cons_of_mem a hx)))

theorem probedThrough_append_ack (out : Nat → ProbeOut) :
    ∀ l1 l2 : List Nat, (∃ a ∈ l1, out a = ProbeOut.ack) →
      probedThrough out (l1 ++ l2) = probedThrough out l1 := by
  intro l1
  induction l1 with
  | nil => intro l2 h; simp at h
  | cons a rest ih =>
    intro l2 h
    by_cases hoa : out a = ProbeOut.ack
    · simp [probedThrough, hoa]
    · simp only [List.cons_append, probedThrough, if_neg hoa]
      obtain ⟨x, hx, hax⟩ := h
      rcases List.mem_cons.mp hx with hx | hx
      · subst hx; exact absurd hax hoa
      · exact congrArg (fun t => a :: t) (ih l2 ⟨x, hx, hax⟩)

theorem scan_clean (out : Nat → ProbeOut) (hnt : ∀ a, out a ≠ ProbeOut.timeout) :
    scan out false
      = { found := firstAck out scanAddrs, dead := false,
          probed := probedThrough out scanAddrs } := by
  have hz1 : ∀ a ∈ addrRange 0x20 0x27, a ≠ 0 := by decide
  have h1 := probeList_clean out hnt (addrRange 0x20 0x27)
  have h2 := probeList_clean out hnt (addrRange 0x38 0x3f)
  simp only [scan, h1, h2]
  by_cases hf : firstAck out (addrRange 0x20 0x27) = 0
  · rw [if_neg (by simp [hf])]
    have hnoack : ∀ a ∈ addrRange 0x20 0x27, out a ≠ ProbeOut.ack :=
      (firstAck_eq_zero out _ hz1).mp hf
    unfold scanAddrs
    rw [firstAck_append out _ _ hz1, if_pos hf,
      probedThrough_append_noack out _ _ hnoack, probedThrough_noack out _ hnoack]
  · rw [if_pos (by simp [hf])]
    have hex : ∃ a ∈ addrRange 0x20 0x27, out a = ProbeOut.ack := by
      by_contra hno
      push_neg at hno
      exact hf ((firstAck_eq_zero out _ hz1).mpr hno)
    unfold scanAddrs
    rw [firstAck_append out _ _ hz1, if_neg hf,
      probedThrough_append_ack out _ _ hex]

theorem lcd_init_tail_shape (env : InitEnv) (s : LcdState) (reinit ranFloat : Bool)
    (probed : List Nat) :
    (lcd_init_tail env s reinit ranFloat probed).2.ranFloatCheck = ranFloat
    ∧ (lcd_init_tail env s reinit ranFloat probed).2.probed = probed
    ∧ (lcd_init_tail env s reinit ranFloat probed).1.i2c_addr = s.i2c_addr
    ∧ (lcd_init_tail env s reinit ranFloat probed).2.mode
        = (if s.i2c_addr = OLED_ADDR then Ctype.bitmap else Ctype.character) := by
  unfold lcd_init_tail
  by_cases h : s.i2c_addr = OLED_ADDR
  · have hc : (s.i2c_addr == OLED_ADDR) = true := by simp [h]
    simp [hc, initOk, h]
  · have hc : (s.i2c_addr == OLED_ADDR) = false := by simp [h]
    cases env.startOut with
    | ack =>
      cases reinit with
      | false => simp [hc, initOk, h]
      | true => simp [hc, initOk, h]
    | nak => simp [hc, initFail, h]
    | timeout => simp [hc, initFail, h]

/-- C7: a reinitialization (address already stored) skips the floating-bus
check and the scan and keeps the stored address; a first initialization with
a clean bus and no probe timeouts runs the floating-bus check, probes
0x20-0x27 then 0x38-0x3f in ascending order stopping at the first
acknowledging address, stores that address, and dispatches to the bitmap
controller exactly when it is 0x3c, to the character controller otherwise. -/
theorem C7_detect_once (env : InitEnv) (s : LcdState) :
    (s.i2c_addr ≠ 0 →
       (lcd_init env s).2.ranFloatCheck = false
       ∧ (lcd_init env s).2.probed = []
       ∧ (lcd_init env s).1.i2c_addr = s.i2c_addr)
    ∧ (s.i2c_addr = 0 → s.i2c_dead = false →
       env.floatSclHigh = true → env.floatSdaHigh = true →
       (∀ a, env.probeOut a ≠ ProbeOut.timeout) →
       (lcd_init env s).2.ranFloatCheck = true
       ∧ (lcd_init env s).2.probed = probedThrough env.probeOut scanAddrs
       ∧ (firstAck env.probeOut scanAddrs ≠ 0 →
           (lcd_init env s).1.i2c_addr = firstAck env.probeOut scanAddrs
           ∧ (lcd_init env s).2.mode
               = (if firstAck env.probeOut scanAddrs = OLED_ADDR
                  then Ctype.bitmap else Ctype.character))) := by
  constructor
  · intro ha
    have hb : (s.i2c_addr != 0) = true := by simp [ha]
    have he : lcd_init env s = lcd_init_tail env s true false [] := by
      simp only [lcd_init, hb, Bool.not_true, Bool.false_and, Bool.false_eq_true,
        if_false]
    rw [he]
    have ht := lcd_init_tail_shape env s true false []
    exact ⟨ht.1, ht.2.1, ht.2.2.1⟩
  · intro ha hdead hscl hsda hnt
    have hb : (s.i2c_addr != 0) = false := by simp [ha]
    have hsc := scan_clean env.probeOut hnt
    by_cases hfz : firstAck env.probeOut scanAddrs = 0
    · have hcz : (firstAck env.probeOut scanAddrs == 0) = true := by simp [hfz]
      have he : lcd_init env s
          = ({ s with i2c_dead := false },
             initFail false true (probedThrough env.probeOut scanAddrs)
               Ctype.unknown) := by
        simp only [lcd_init, hb, Bool.not_false, Bool.true_and, hscl, hsda,
          Bool.and_self, Bool.not_true, Bool.false_eq_true, if_false, hdead,
          hsc, hcz, if_true]
      rw [he]
      exact ⟨rfl, rfl, fun hne => absurd hfz hne⟩
    · have hcz : (firstAck env.probeOut scanAddrs == 0) = false := by simp [hfz]
      have he : lcd_init env s
          = lcd_init_tail env
              { s with
                  i2c_addr := firstAck env.probeOut scanAddrs,
                  i2c_dead := false,
                  text := lcd_clear s.text }
              false true (probedThrough env.probeOut scanAddrs) := by
        simp only [lcd_init, hb, Bool.not_false, Bool.true_and, hscl, hsda,
          Bool.and_self, Bool.not_true, Bool.false_eq_true, if_false, hdead,
          hsc, hcz, if_true]
      rw [he]
      have ht := lcd_init_tail_shape env
        { s with
            i2c_addr := firstAck env.probeOut scanAddrs,
            i2c_dead := false,
            text := lcd_clear s.text }
        false true (probedThrough env.probeOut scanAddrs)
      exact ⟨ht.1, ht.2.1, fun _ => ⟨ht.2.2.1, ht.2.2.2⟩⟩

/-- Witness for C7: the reinit state with stored address 0x27 skips the scan;
the first-init environment acknowledging at 0x20 stores address 0x20. -/
theorem C7_detect_once_witness :
    ((lcd_init env0 s0).2.ranFloatCheck = false
      ∧ (lcd_init env0 s0).2.probed = []
      ∧ (lcd_init env0 s0).1.i2c_addr = s0.i2c_addr)
    ∧ (lcd_init env1 sInit).1.i2c_addr = firstAck env1.probeOut scanAddrs := by
  constructor
  · exact (C7_detect_once env0 s0).1 (by decide)
  · have hnt : ∀ a, env1.probeOut a ≠ ProbeOut.timeout := by
      intro a
      simp only [env1]
      split
      · decide
      · decide
    have h := (C7_detect_once env1 sInit).2 (by decide) (by decide) (by decide)
      (by decide) hnt
    exact (h.2.2 (by decide)).1

theorem i2c_wait_cases (errMask bound st : Nat) :
    ∀ (trace : List (Nat × Nat × Nat)) (dead r d' : Bool),
      i2c_wait errMask bound st trace dead = some (r, d') →
      (r = true ∧ d' = dead ∧ ∃ x ∈ trace, x.1 &&& st = st)
      ∨ (r = false ∧ d' = dead ∧ ∃ x ∈ trace, x.2.1 &&& errMask ≠ 0)
      ∨ (r = false ∧ d' = true ∧ ∃ x ∈ trace, x.2.2 > bound) := by
  intro trace
  induction trace with
  | nil => intro dead r d' h; simp [i2c_wait] at h
  | cons x rest ih =>
    obtain ⟨a, b, t⟩ := x
    intro dead r d' h
    simp only [i2c_wait] at h
    split at h
    · rename_i hst
      simp only [Option.some.injEq, Prod.mk.injEq] at h
      refine Or.inl ⟨h.1.symm, h.2.symm, ⟨(a, b, t), by simp, ?_⟩⟩
      simpa using hst
    · split at h
      · rename_i herr
        simp only [Option.some.injEq, Prod.mk.injEq] at h
        refine Or.inr (Or.inl ⟨h.1.symm, h.2.symm, ⟨(a, b, t), by simp, ?_⟩⟩)
        simpa using herr
      · split at h
        · rename_i ht
          simp only [Option.some.injEq, Prod.mk.injEq] at h
          exact Or.inr (Or.inr ⟨h.1.symm, h.2.symm, ⟨(a, b, t), by simp, ht⟩⟩)
        · rcases ih dead r d' h with ⟨h1, h2, y, hy, hp⟩ | ⟨h1, h2, y, hy, hp⟩ | ⟨h1, h2, y, hy, hp⟩
          · exact Or.inl ⟨h1, h2, y, List.mem_cons_of_mem _ hy, hp⟩
          · exact Or.inr (Or.inl ⟨h1, h2, y, List.mem_cons_of_mem _ hy, hp⟩)
          · exact Or.inr (Or.inr ⟨h1, h2, y, List.mem_cons_of_mem _ hy, hp⟩)

/-- C8: a synchronous bus wait that returns within its observation trace
either observed the requested status (success, dead flag unchanged), or saw a
controller-reported error first (failure, dead flag unchanged), or saw the
elapsed time exceed the bound (failure, sticky dead flag set); once the dead
flag is set the address scan probes nothing and reports no device, and a
first initialization entered with the dead flag set fails with an empty probe
list. -/
theorem C8_timeout_sticky :
    (∀ (errMask bound st : Nat) (trace : List (Nat × Nat × Nat)) (dead r d' : Bool),
        i2c_wait errMask bound st trace dead = some (r, d') →
        (r = true ∧ d' = dead ∧ ∃ x ∈ trace, x.1 &&& st = st)
        ∨ (r = false ∧ d' = dead ∧ ∃ x ∈ trace, x.2.1 &&& errMask ≠ 0)
        ∨ (r = false ∧ d' = true ∧ ∃ x ∈ trace, x.2.2 > bound))
    ∧ (∀ (out : Nat → ProbeOut) (l : List Nat),
        probeList out l true = { found := 0, dead := true, probed := [] })
    ∧ (∀ (env : InitEnv) (s : LcdState),
        s.i2c_addr = 0 → s.i2c_dead = true →
        env.floatSclHigh = true → env.floatSdaHigh = true →
        (lcd_init env s).2.probed = [] ∧ (lcd_init env s).2.ok = false) := by
  refine ⟨i2c_wait_cases, probeList_dead, ?_⟩
  intro env s ha hd hscl hsda
  have hb : (s.i2c_addr != 0) = false := by simp [ha]
  have hs : scan env.probeOut true = { found := 0, dead := true, probed := [] } := by
    simp [scan, probeList_dead]
  have he : lcd_init env s
      = ({ s with i2c_dead := true }, initFail false true [] Ctype.unknown) := by
    simp only [lcd_init, hb, Bool.not_false, Bool.true_and, hscl, hsda,
      Bool.and_self, Bool.not_true, Bool.false_eq_true, if_false, hd, hs,
      beq_self_eq_true, if_true]
  rw [he]
  exact ⟨rfl, rfl⟩

/-- Witness for C8: a trace whose elapsed time exceeds the bound yields
failure with the dead flag set; a dead-flag scan probes nothing; a first
initialization with the dead flag set fails. -/
theorem C8_timeout_sticky_witness :
    ((false = true ∧ true = false
        ∧ ∃ x ∈ [((0 : Nat), (0 : Nat), (11 : Nat))], x.1 &&& 1 = 1)
      ∨ (false = false ∧ true = false
        ∧ ∃ x ∈ [((0 : Nat), (0 : Nat), (11 : Nat))], x.2.1 &&& 2 ≠ 0)
      ∨ (false = false ∧ true = true
        ∧ ∃ x ∈ [((0 : Nat), (0 : Nat), (11 : Nat))], x.2.2 > 10))
    ∧ probeList (fun _ => ProbeOut.ack) [32, 33] true
        = { found := 0, dead := true, probed := [] }
    ∧ ((lcd_init env0 sDead).2.probed = [] ∧ (lcd_init env0 sDead).2.ok = false) := by
  refine ⟨?_, ?_, ?_⟩
  · exact C8_timeout_sticky.1 2 10 1 [(0, 0, 11)] false false true (by decide)
  · exact C8_timeout_sticky.2.1 (fun _ => ProbeOut.ack) [32, 33]
  · exact C8_timeout_sticky.2.2 env0 sDead (by decide) (by decide) (by decide)
      (by decide)

theorem lcd_init_tail_ok_or_fail (env : InitEnv) (s : LcdState)
    (reinit ranFloat : Bool) (probed : List Nat) :
    (lcd_init_tail env s reinit ranFloat probed).2.ok = true
    ∨ (lcd_init_tail env s reinit ranFloat probed).2
        = initFail reinit ranFloat probed Ctype.character := by
  unfold lcd_init_tail
  split
  · left; rfl
  · cases env.startOut with
    | ack => left; rfl
    | nak => right; rfl
    | timeout => right; rfl

theorem lcd_init_ok_or_fail (env : InitEnv) (s : LcdState) :
    (lcd_init env s).2.ok = true
    ∨ ∃ (ranFloat : Bool) (probed : List Nat) (md : Ctype),
        (lcd_init env s).2 = initFail (s.i2c_addr != 0) ranFloat probed md := by
  simp only [lcd_init]
  split
  · right
    exact ⟨true, [], Ctype.unknown, rfl⟩
  · split
    · split
      · right
        exact ⟨true, (scan env.probeOut s.i2c_dead).probed, Ctype.unknown, rfl⟩
      · rcases lcd_init_tail_ok_or_fail env _ (s.i2c_addr != 0) true
          (scan env.probeOut s.i2c_dead).probed with h | h
        · left; exact h
        · right; exact ⟨true, (scan env.probeOut s.i2c_dead).probed, Ctype.character, h⟩
    · rcases lcd_init_tail_ok_or_fail env s (s.i2c_addr != 0) false [] with h | h
      · left; exact h
      · right; exact ⟨false, [], Ctype.character, h⟩

/-- C9: when `lcd_init` fails on the very first call (no address stored at
entry) it disables the error and DMA interrupts, the bus controller's enable
bit and its APB clock, and returns both pins to weak pull-up inputs; when it
fails on a reinitialization call it performs none of that teardown. -/
theorem C9_fail_teardown (env : InitEnv) (s : LcdState)
    (hfail : (lcd_init env s).2.ok = false) :
    (s.i2c_addr = 0 →
       (lcd_init env s).2.irqErrDisabled = true
       ∧ (lcd_init env s).2.irqDmaDisabled = true
       ∧ (lcd_init env s).2.peDisabled = true
       ∧ (lcd_init env s).2.pinsPullUp = true
       ∧ (lcd_init env s).2.clockDisabled = true)
    ∧ (s.i2c_addr ≠ 0 →
       (lcd_init env s).2.irqErrDisabled = false
       ∧ (lcd_init env s).2.irqDmaDisabled = false
       ∧ (lcd_init env s).2.peDisabled = false
       ∧ (lcd_init env s).2.pinsPullUp = false
       ∧ (lcd_init env s).2.clockDisabled = false) := by
  rcases lcd_init_ok_or_fail env s with hok | ⟨ranFloat, probed, md, heq⟩
  · rw [hok] at hfail
    simp at hfail
  · rw [heq]
    constructor
    · intro ha
      have hb : (s.i2c_addr != 0) = false := by simp [ha]
      rw [hb]
      simp [initFail]
    · intro ha
      have hb : (s.i2c_addr != 0) = true := by simp [ha]
      rw [hb]
      simp [initFail]

/-- Witness for C9: a failed floating-bus check on first init tears the bus
down; a failed synchronous start on a reinit leaves the pins alone. -/
theorem C9_fail_teardown_witness :
    ((lcd_init envFail sInit).2.irqErrDisabled = true
      ∧ (lcd_init envFail sInit).2.irqDmaDisabled = true
      ∧ (lcd_init envFail sInit).2.peDisabled = true
      ∧ (lcd_init envFail sInit).2.pinsPullUp = true
      ∧ (lcd_init envFail sInit).2.clockDisabled = true)
    ∧ (lcd_init envNak s0).2.pinsPullUp = false := by
  constructor
  · exact (C9_fail_teardown envFail sInit (by decide)).1 (by decide)
  · exact ((C9_fail_teardown envNak s0 (by decide)).2 (by decide)).2.2.2.1

theorem emit8_length (bl v sg : Nat) : (emit8 bl v sg).length = 6 := rfl

theorem lcd_row_bytes_length (bl : Nat) (g : Grid) (i : Nat) :
    (lcd_row_bytes bl g i).length = 102 := by
  have h := flatten_map_length (fun c => emit8 bl c RS) 6
    (fun c => emit8_length bl c RS) (textRowList g i)
  simp [lcd_row_bytes, emit8_length, h, textRowList_length]

theorem lcd_prep_bytes_length (bl : Nat) (g : Grid) :
    (lcd_prep_bytes bl g).length = 204 := by
  simp [lcd_prep_bytes, lcd_row_bytes_length]

theorem oled_start_i2c_bytes_length (bl : Nat) :
    (oled_start_i2c_bytes bl).length = 19 := by
  simp [oled_start_i2c_bytes, setup_addr_cmds]

theorem oled_init_bytes_length (bl : Nat) : (oled_init_bytes bl).length = 63 := by
  simp [oled_init_bytes, init_cmds, oled_start_i2c_bytes, setup_addr_cmds]

theorem lcd_init_dma_bytes_length (bl : Nat) :
    (lcd_init_dma_bytes bl).length = 24 := by
  simp [lcd_init_dma_bytes, emit8_length]

theorem oled_prep_len_cases (font : Nat → Nat) (ev : BtfWait) (s : LcdState) :
    (oled_prep_buffer font ev s).2.len = 0
    ∨ (oled_prep_buffer font ev s).2.len = 19
    ∨ (oled_prep_buffer font ev s).2.len = 256 := by
  unfold oled_prep_buffer
  split
  · cases ev with
    | err => left; rfl
    | btf => right; left; exact oled_start_i2c_bytes_length s.bl
  · right; right; rfl

theorem lcd_init_tail_dma (env : InitEnv) (s : LcdState) (reinit ranFloat : Bool)
    (probed : List Nat) (d : DmaStart)
    (hd : (lcd_init_tail env s reinit ranFloat probed).2.dma = some d) :
    d.assertOk = true := by
  revert hd
  unfold lcd_init_tail
  split
  · intro hd
    simp only [initOk, Option.some.injEq] at hd
    rw [← hd]
    simp [dma_start, oled_init_bytes_length]
  · cases env.startOut with
    | ack =>
      intro hd
      simp only [initOk, Option.some.injEq] at hd
      rw [← hd]
      simp [dma_start, lcd_init_dma_bytes_length]
    | nak =>
      intro hd
      simp [initFail] at hd
    | timeout =>
      intro hd
      simp [initFail] at hd

theorem lcd_init_dma_assert (env : InitEnv) (s : LcdState) (d : DmaStart)
    (hd : (lcd_init env s).2.dma = some d) : d.assertOk = true := by
  simp only [lcd_init] at hd
  split at hd
  · simp [initFail] at hd
  · split at hd
    · split at hd
      · simp [initFail] at hd
      · exact lcd_init_tail_dma env _ _ _ _ d hd
    · exact lcd_init_tail_dma env _ _ _ _ d hd

/-- C10: every length handed to `dma_start` fits the 256-byte buffer, so its
assertion never fails: the character serializer always returns 204 bytes
(2 x (1 address + 16 characters) x 6 wire bytes), the bitmap serializer
returns only 0, 19 or 256, the two initialization sequences are 63 and 24
bytes, and both the completion handler's `dma_start` call and any `dma_start`
recorded by `lcd_init` pass the assertion. -/
theorem C10_dma_within_buffer (bl : Nat) (g : Grid) (font : Nat → Nat)
    (ev : BtfWait) (s : LcdState) (env : InitEnv) :
    (lcd_prep_bytes bl g).length = 204
    ∧ (lcd_prep_buffer s).2.len = 204
    ∧ ((oled_prep_buffer font ev s).2.len = 0
        ∨ (oled_prep_buffer font ev s).2.len = 19
        ∨ (oled_prep_buffer font ev s).2.len = 256)
    ∧ (oled_init_bytes bl).length = 63
    ∧ (lcd_init_dma_bytes bl).length = 24
    ∧ (IRQ_dma1_ch4_tc font ev s).2.dma.assertOk = true
    ∧ (∀ d : DmaStart, (lcd_init env s).2.dma = some d → d.assertOk = true) := by
  refine ⟨lcd_prep_bytes_length bl g, lcd_prep_bytes_length s.bl s.text,
    oled_prep_len_cases font ev s, oled_init_bytes_length bl,
    lcd_init_dma_bytes_length bl, ?_, fun d hd => lcd_init_dma_assert env s d hd⟩
  unfold IRQ_dma1_ch4_tc
  by_cases h : s.i2c_addr = OLED_ADDR
  · have hc : (s.i2c_addr == OLED_ADDR) = true := by simp [h]
    simp only [hc, if_true]
    rcases oled_prep_len_cases font ev s with hl | hl | hl <;>
      simp [dma_start, hl]
  · have hc : (s.i2c_addr == OLED_ADDR) = false := by simp [h]
    have hlen : (lcd_prep_buffer s).2.len = 204 := lcd_prep_bytes_length s.bl s.text
    simp only [hc, Bool.false_eq_true, if_false]
    simp [dma_start, hlen]

/-- Witness for C10 at the concrete first-init run that stores address 0x20:
the 24-byte character-LCD init DMA passes the assertion. -/
theorem C10_dma_within_buffer_witness : (dma_start 24).assertOk = true := by
  have h := (C10_dma_within_buffer 0 (fun _ _ => 32) font0 BtfWait.btf sInit
    env1).2.2.2.2.2.2
  exact h (dma_start 24) (by decide)

end FFLcd
